import Mathlib

/-!
Verification of the tamagotchi backend streaming/teardown core.

Shallow embedding of:
  * the envelope codec (`core/sockets/envelope_type.py`, together with the
    generic envelope module `core/sockets/types/envelope.py` that
    `core/sockets/types/__init__.py` re-exports and the actor files import),
  * the file streamer (`core/sockets/file_streamer.py`),
  * the cached-analysis streamer and teardown handler
    (`core/sockets/claude_sdk_actor.py`),
  * the chunk-processing stream task (`core/sockets/actors/claude_sdk.py`),
  * the dispatcher start handlers (`core/sockets/actors/base.py`),
  * the repository cache pipeline (`core/teardown/git_repo_processor.py`).

Python `None` becomes `Option`, raised exceptions become `Except`, and the
results of external collaborators (GitHub metadata API, `git clone`, the
Claude SDK chunk iterator) are passed in as explicit parameters so that each
embedded function is a pure function of its inputs.
-/

namespace Tamagotchi

/-! ## JSON values

The wire format of `Envelope.model_dump_json`.  Numbers are modelled as
integers: every numeric field of the envelope (`ts`, `seq`) is an `int` in
`envelope_type.py`, and payload dictionaries are carried opaquely. -/

inductive Json where
  | null : Json
  | bool (b : Bool) : Json
  | num (n : Int) : Json
  | str (s : String) : Json
  | arr (xs : List Json) : Json
  | obj (fields : List (String × Json)) : Json
deriving Repr

/-- Key lookup in a JSON object, first match wins (Python dicts have unique
keys, so this is exact on encoder output). -/
def getKey (fields : List (String × Json)) (k : String) : Option Json :=
  match fields with
  | [] => none
  | (k2, v) :: rest => if k2 = k then some v else getKey rest k

/-- Pydantic `populate_by_name=True`: a field is accepted under its camelCase
alias or under its Python name, the alias taking priority. -/
def getAliased (fields : List (String × Json)) (al nm : String) : Option Json :=
  match getKey fields al with
  | some v => some v
  | none => getKey fields nm

def asStr : Json → Option String
  | .str s => some s
  | _ => none

def asInt : Json → Option Int
  | .num n => some n
  | _ => none

/-- Validation of `str | None` (pydantic accepts JSON null for `None`). -/
def asOptStr : Json → Option (Option String)
  | .null => some none
  | .str s => some (some s)
  | _ => none

/-- Validation of `int | None`. -/
def asOptInt : Json → Option (Option Int)
  | .null => some none
  | .num n => some (some n)
  | _ => none

/-! ## Closed string literals of the protocol

`Direction`, `Actor`, `Action`, `Modifier` from `envelope_type.py`.
`envelope_type.py` declares `Actor = Literal["assistant", "coder", "writer"]`;
the sibling generic envelope module imported by `core/sockets/actors/*`
(`core/sockets/types/envelope.py`, re-exported by the package `__init__`) is
not present under `src/`, and per the spec the actor identity there is the
closed set {assistant, coder, writer, repository-analysis ("claude")}.  The
codec below carries the four-name set; the three-name restriction of
`envelope_type.py` is discussed where it matters. -/

inductive Direction where
  | c2s | s2c
deriving DecidableEq, Repr

def Direction.toStr : Direction → String
  | .c2s => "c2s"
  | .s2c => "s2c"

def Direction.ofStr : String → Option Direction
  | "c2s" => some .c2s
  | "s2c" => some .s2c
  | _ => none

inductive ActorId where
  | assistant | coder | writer | claude
deriving DecidableEq, Repr

def ActorId.toStr : ActorId → String
  | .assistant => "assistant"
  | .coder => "coder"
  | .writer => "writer"
  | .claude => "claude"

def ActorId.ofStr : String → Option ActorId
  | "assistant" => some .assistant
  | "coder" => some .coder
  | "writer" => some .writer
  | "claude" => some .claude
  | _ => none

inductive ActionId where
  | stream
deriving DecidableEq, Repr

def ActionId.toStr : ActionId → String
  | .stream => "stream"

def ActionId.ofStr : String → Option ActionId
  | "stream" => some .stream
  | _ => none

inductive Modifier where
  | start | chunk | fin
deriving DecidableEq, Repr

/-- Wire name of the modifier; `fin` stands for the Python literal "end"
(`end` is reserved in Lean). -/
def Modifier.toStr : Modifier → String
  | .start => "start"
  | .chunk => "chunk"
  | .fin => "end"

def Modifier.ofStr : String → Option Modifier
  | "start" => some .start
  | "chunk" => some .chunk
  | "end" => some .fin
  | _ => none

/-! ## Message (`core/sockets/types/message.py`)

A plain pydantic model (no alias generator): field names are used verbatim on
the wire. -/

inductive Role where
  | user | assistant | human | generative | system
deriving DecidableEq, Repr

def Role.toStr : Role → String
  | .user => "user"
  | .assistant => "assistant"
  | .human => "human"
  | .generative => "generative"
  | .system => "system"

def Role.ofStr : String → Option Role
  | "user" => some .user
  | "assistant" => some .assistant
  | "human" => some .human
  | "generative" => some .generative
  | "system" => some .system
  | _ => none

structure Message where
  role : Role
  content : String
deriving Repr

def encodeMessage (m : Message) : Json :=
  .obj [("role", .str m.role.toStr), ("content", .str m.content)]

def decodeMessage (j : Json) : Option Message :=
  match j with
  | .obj fields => do
    let r ← getKey fields "role" >>= asStr
    let role ← Role.ofStr r
    let content ← getKey fields "content" >>= asStr
    some { role := role, content := content }
  | _ => none

/-! ## ErrorDetails (`envelope_type.py` lines 18-32) -/

inductive ErrorCode where
  | E_INVALID | E_UNAUTHORIZED | E_FORBIDDEN | E_NOT_FOUND | E_CONFLICT
  | E_RATE_LIMITED | E_TIMEOUT | E_OVERFLOW | E_UNAVAILABLE | E_INTERNAL
deriving DecidableEq, Repr

def ErrorCode.toStr : ErrorCode → String
  | .E_INVALID => "E_INVALID"
  | .E_UNAUTHORIZED => "E_UNAUTHORIZED"
  | .E_FORBIDDEN => "E_FORBIDDEN"
  | .E_NOT_FOUND => "E_NOT_FOUND"
  | .E_CONFLICT => "E_CONFLICT"
  | .E_RATE_LIMITED => "E_RATE_LIMITED"
  | .E_TIMEOUT => "E_TIMEOUT"
  | .E_OVERFLOW => "E_OVERFLOW"
  | .E_UNAVAILABLE => "E_UNAVAILABLE"
  | .E_INTERNAL => "E_INTERNAL"

def ErrorCode.ofStr : String → Option ErrorCode
  | "E_INVALID" => some .E_INVALID
  | "E_UNAUTHORIZED" => some .E_UNAUTHORIZED
  | "E_FORBIDDEN" => some .E_FORBIDDEN
  | "E_NOT_FOUND" => some .E_NOT_FOUND
  | "E_CONFLICT" => some .E_CONFLICT
  | "E_RATE_LIMITED" => some .E_RATE_LIMITED
  | "E_TIMEOUT" => some .E_TIMEOUT
  | "E_OVERFLOW" => some .E_OVERFLOW
  | "E_UNAVAILABLE" => some .E_UNAVAILABLE
  | "E_INTERNAL" => some .E_INTERNAL
  | _ => none

structure ErrorDetails where
  code : ErrorCode
  message : String
  details : Option (List (String × Json))
deriving Repr

def encodeDetails : Option (List (String × Json)) → Json
  | none => .null
  | some fields => .obj fields

def decodeDetails : Json → Option (Option (List (String × Json)))
  | .null => some none
  | .obj fields => some (some fields)
  | _ => none

def encodeErrorDetails (e : ErrorDetails) : Json :=
  .obj [("code", .str e.code.toStr), ("message", .str e.message),
        ("details", encodeDetails e.details)]

def decodeErrorDetails (j : Json) : Option ErrorDetails :=
  match j with
  | .obj fields => do
    let c ← getKey fields "code" >>= asStr
    let code ← ErrorCode.ofStr c
    let message ← getKey fields "message" >>= asStr
    let details ← match getKey fields "details" with
      | none => some none
      | some jv => decodeDetails jv
    some { code := code, message := message, details := details }
  | _ => none

def encodeOptError : Option ErrorDetails → Json
  | none => .null
  | some e => encodeErrorDetails e

def decodeOptError : Json → Option (Option ErrorDetails)
  | .null => some none
  | j => (decodeErrorDetails j).map some

/-! ## Envelope (`envelope_type.py` lines 41-66)

Field names follow the Python model; `data : dict | list[Message]` becomes the
sum `EnvData`. -/

inductive EnvData where
  | dict (fields : List (String × Json)) : EnvData
  | messages (ms : List Message) : EnvData
deriving Repr

structure Envelope where
  v : String
  id : String
  ts : Int
  request_id : Option String
  stream_id : Option String
  seq : Option Int
  direction : Direction
  actor : ActorId
  action : ActionId
  modifier : Modifier
  data : EnvData
  error : Option ErrorDetails
deriving Repr

def encodeOptStr : Option String → Json
  | none => .null
  | some s => .str s

def encodeOptInt : Option Int → Json
  | none => .null
  | some n => .num n

def encodeData : EnvData → Json
  | .dict fields => .obj fields
  | .messages ms => .arr (ms.map encodeMessage)

/-- Elementwise validation of `list[Message]`. -/
def decodeMessages : List Json → Option (List Message)
  | [] => some []
  | j :: rest => do
    let m ← decodeMessage j
    let ms ← decodeMessages rest
    some (m :: ms)

/-- Validation of `data: dict | list[Message]`: a JSON object validates as the
dict member, a JSON array validates elementwise as messages, anything else is
rejected. -/
def decodeData : Json → Option EnvData
  | .obj fields => some (.dict fields)
  | .arr xs => (decodeMessages xs).map .messages
  | _ => none

/-- `Envelope.model_dump_json`: `AliasedBaseModel.model_dump_json` passes
`by_alias=True`, so `request_id`/`stream_id` are serialized under their
`to_camel` aliases `requestId`/`streamId`; all other field names are single
words and unchanged by `to_camel`.  `None` fields are serialized as JSON
null (no `exclude_none`). -/
def encodeEnvelope (e : Envelope) : Json :=
  .obj [("v", .str e.v),
        ("id", .str e.id),
        ("ts", .num e.ts),
        ("requestId", encodeOptStr e.request_id),
        ("streamId", encodeOptStr e.stream_id),
        ("seq", encodeOptInt e.seq),
        ("direction", .str e.direction.toStr),
        ("actor", .str e.actor.toStr),
        ("action", .str e.action.toStr),
        ("modifier", .str e.modifier.toStr),
        ("data", encodeData e.data),
        ("error", encodeOptError e.error)]

/-- `Envelope.model_validate` on a JSON object.  Fields with defaults may be
absent (`v` defaults to "1", `request_id`/`stream_id`/`seq`/`error` default to
`None`); `direction`/`actor`/`action`/`modifier`/`data` are required and must
match their `Literal`/union types.  The `id`/`ts` defaults are fresh-value
factories (uuid4 / now): an input lacking them validates in Python with a
nondeterministically minted value, which a pure embedding cannot produce, so
such inputs are mapped to `none`; every encoder output carries both keys. -/
def decodeEnvelope (j : Json) : Option Envelope :=
  match j with
  | .obj fields => do
    let v ← match getKey fields "v" with
      | none => some "1"
      | some jv => asStr jv
    let idv ← getKey fields "id" >>= asStr
    let ts ← getKey fields "ts" >>= asInt
    let request_id ← match getAliased fields "requestId" "request_id" with
      | none => some none
      | some jv => asOptStr jv
    let stream_id ← match getAliased fields "streamId" "stream_id" with
      | none => some none
      | some jv => asOptStr jv
    let seq ← match getKey fields "seq" with
      | none => some none
      | some jv => asOptInt jv
    let direction ← getKey fields "direction" >>= asStr >>= Direction.ofStr
    let actor ← getKey fields "actor" >>= asStr >>= ActorId.ofStr
    let action ← getKey fields "action" >>= asStr >>= ActionId.ofStr
    let modifier ← getKey fields "modifier" >>= asStr >>= Modifier.ofStr
    let data ← getKey fields "data" >>= decodeData
    let error ← match getKey fields "error" with
      | none => some none
      | some jv => decodeOptError jv
    some { v := v, id := idv, ts := ts, request_id := request_id,
           stream_id := stream_id, seq := seq, direction := direction,
           actor := actor, action := action, modifier := modifier,
           data := data, error := error }
  | _ => none

/-! ### Round-trip lemmas for the field codecs -/

theorem direction_ofStr_toStr (d : Direction) : Direction.ofStr d.toStr = some d := by
  cases d <;> rfl

theorem actorId_ofStr_toStr (a : ActorId) : ActorId.ofStr a.toStr = some a := by
  cases a <;> rfl

theorem actionId_ofStr_toStr (a : ActionId) : ActionId.ofStr a.toStr = some a := by
  cases a
  rfl

theorem modifier_ofStr_toStr (m : Modifier) : Modifier.ofStr m.toStr = some m := by
  cases m <;> rfl

theorem role_ofStr_toStr (r : Role) : Role.ofStr r.toStr = some r := by
  cases r <;> rfl

theorem errorCode_ofStr_toStr (c : ErrorCode) : ErrorCode.ofStr c.toStr = some c := by
  cases c <;> rfl

theorem asOptStr_encodeOptStr (x : Option String) : asOptStr (encodeOptStr x) = some x := by
  cases x <;> rfl

theorem asOptInt_encodeOptInt (x : Option Int) : asOptInt (encodeOptInt x) = some x := by
  cases x <;> rfl

theorem decodeMessage_encodeMessage (m : Message) :
    decodeMessage (encodeMessage m) = some m := by
  cases m with
  | mk role content =>
    simp [decodeMessage, encodeMessage, getKey, asStr, role_ofStr_toStr]

theorem decodeMessages_map_encodeMessage (ms : List Message) :
    decodeMessages (ms.map encodeMessage) = some ms := by
  induction ms with
  | nil => rfl
  | cons m rest ih =>
    simp [decodeMessages, decodeMessage_encodeMessage, ih]

theorem decodeData_encodeData (d : EnvData) : decodeData (encodeData d) = some d := by
  cases d with
  | dict fields => rfl
  | messages ms => simp [decodeData, encodeData, decodeMessages_map_encodeMessage]

theorem decodeDetails_encodeDetails (d : Option (List (String × Json))) :
    decodeDetails (encodeDetails d) = some d := by
  cases d <;> rfl

theorem decodeErrorDetails_encodeErrorDetails (e : ErrorDetails) :
    decodeErrorDetails (encodeErrorDetails e) = some e := by
  cases e with
  | mk code message details =>
    cases details
    all_goals
      simp [decodeErrorDetails, encodeErrorDetails, getKey, asStr,
            errorCode_ofStr_toStr, encodeDetails, decodeDetails]

theorem decodeOptError_encodeOptError (e : Option ErrorDetails) :
    decodeOptError (encodeOptError e) = some e := by
  cases e with
  | none => rfl
  | some err =>
    have hne : encodeErrorDetails err ≠ Json.null := by
      cases err; simp [encodeErrorDetails]
    simp [encodeOptError]
    rw [decodeOptError.eq_def]
    split
    · exact absurd (by assumption) hne
    · simp [decodeErrorDetails_encodeErrorDetails]

/-- C8: for every structurally valid envelope, validating the JSON produced by
`Envelope.model_dump_json` (camelCase aliases) back through
`Envelope.model_validate` returns the same envelope, field for field. -/
theorem decode_encode_envelope (e : Envelope) :
    decodeEnvelope (encodeEnvelope e) = some e := by
  cases e with
  | mk v idv ts request_id stream_id seq direction actor action modifier data error =>
    simp [decodeEnvelope, encodeEnvelope, getKey, getAliased, asStr, asInt,
          asOptStr_encodeOptStr, asOptInt_encodeOptInt,
          direction_ofStr_toStr, actorId_ofStr_toStr, actionId_ofStr_toStr,
          modifier_ofStr_toStr, decodeData_encodeData,
          decodeOptError_encodeOptError]

/-! ## Emitted server-to-client messages

Every chunk-producing procedure emits envelopes through `sio.emit(event,
envelope.model_dump_json(), to=sid)`.  An `Emit` records the event name and
the envelope fields those procedures set; the payload dict `{"delta": ...}`,
`{"finish_reason": ...}`, `{"finish_reason": ..., "error": ...}` is split into
the three optional fields.  A Python `str` delta is carried as its character
sequence. -/

structure Emit where
  event : String
  request_id : String
  stream_id : String
  seq : Option Int
  modifier : Modifier
  actor : String
  delta : Option (List Char)
  finish_reason : Option String
  error_msg : Option String
deriving Repr, DecidableEq

/-- Number of `chunk` envelopes in a trace. -/
def countChunks (es : List Emit) : Nat :=
  es.countP (fun e => e.modifier == Modifier.chunk)

/-- Number of `end` envelopes in a trace. -/
def countEnds (es : List Emit) : Nat :=
  es.countP (fun e => e.modifier == Modifier.fin)

/-- The seq fields of a trace, in emission order. -/
def seqsOf (es : List Emit) : List (Option Int) :=
  es.map (fun e => e.seq)

/-! ## File streamer (`core/sockets/file_streamer.py`) -/

/-- The chunk split of `stream_chunks_from_file` line 54:
`[content[i:i + chunk_size] for i in range(0, len(content), chunk_size)]`
with `chunk_size = 1000` (line 53). -/
def chunksOf1000 (l : List Char) : List (List Char) :=
  match l with
  | [] => []
  | c :: cs => ((c :: cs).take 1000) :: chunksOf1000 ((c :: cs).drop 1000)
termination_by l.length
decreasing_by simp; omega

/-- Model of `stream_chunks_from_file` (file_streamer.py lines 15-120).
`fileExists` is the result of the `os.path.exists` check (line 26); on the
existing-file path the content is read whole, split into 1000-character
chunks, each emitted with `seq` incremented before emission (so chunks carry
seq 1..n), followed by one `end` envelope with `seq = n + 1` and
`finish_reason = "stop"`.  The `except` path (I/O failure after the existence
check) is outside this pure model. -/
def stream_chunks_from_file (request_id stream_id actor : String)
    (fileExists : Bool) (content : List Char) : List Emit :=
  if fileExists = false then
    [{ event := "s2c." ++ actor ++ ".stream.end", request_id, stream_id,
       seq := some 1, modifier := .fin, actor, delta := none,
       finish_reason := some "error", error_msg := some "File not found" }]
  else
    let chunks := chunksOf1000 content
    (chunks.enum.map fun p =>
      { event := "s2c." ++ actor ++ ".stream.chunk", request_id, stream_id,
        seq := some ((p.1 : Int) + 1), modifier := .chunk, actor,
        delta := some p.2, finish_reason := none, error_msg := none })
    ++ [{ event := "s2c." ++ actor ++ ".stream.end", request_id, stream_id,
          seq := some ((chunks.length : Int) + 1), modifier := .fin, actor,
          delta := none, finish_reason := some "stop", error_msg := none }]

theorem chunk_div_step (n : Nat) (h : 1 ≤ n) :
    (n - 1000 + 999) / 1000 + 1 = (n + 999) / 1000 := by
  rcases Nat.lt_or_ge n 1001 with h1 | h1
  · have h2 : n - 1000 = 0 := by omega
    have h3 : (n + 999) / 1000 = 1 := by
      apply Nat.div_eq_of_lt_le
      all_goals omega
    rw [h2, h3]
  · have h2 : n - 1000 + 999 = n - 1 := by omega
    have h3 : n + 999 = (n - 1) + 1000 := by omega
    rw [h2, h3, Nat.add_div_right _ (by omega)]

theorem countP_map_true {α β : Type} (f : α → β) (p : β → Bool) (l : List α)
    (h : ∀ a, p (f a) = true) : (l.map f).countP p = l.length := by
  induction l with
  | nil => rfl
  | cons a t ih => simp [List.countP_cons, h, ih]

theorem countP_map_false {α β : Type} (f : α → β) (p : β → Bool) (l : List α)
    (h : ∀ a, p (f a) = false) : (l.map f).countP p = 0 := by
  induction l with
  | nil => rfl
  | cons a t ih => simp [List.countP_cons, h, ih]

theorem chunksOf1000_length (l : List Char) :
    (chunksOf1000 l).length = (l.length + 999) / 1000 := by
  induction l using chunksOf1000.induct with
  | case1 => simp [chunksOf1000]
  | case2 c cs ih =>
    rw [chunksOf1000]
    simp only [List.length_cons] at *
    rw [ih]
    have := chunk_div_step (cs.length + 1) (by omega)
    simpa using this

/-- C10: on an existing file, the number of chunk envelopes is the ceiling of
the content length divided by 1000, the trace ends with exactly one `end`
envelope whose seq is the chunk count plus one and whose finish reason is
"stop"; in particular an empty file yields zero chunks and a single `end`
with seq 1. -/
theorem stream_chunks_from_file_shape (request_id stream_id actor : String)
    (content : List Char) :
    countChunks (stream_chunks_from_file request_id stream_id actor true content)
        = (content.length + 999) / 1000
  ∧ (stream_chunks_from_file request_id stream_id actor true content).getLast?
        = some { event := "s2c." ++ actor ++ ".stream.end", request_id, stream_id,
                 seq := some (((content.length + 999) / 1000 : Nat) + 1),
                 modifier := .fin, actor, delta := none,
                 finish_reason := some "stop", error_msg := none }
  ∧ countEnds (stream_chunks_from_file request_id stream_id actor true content) = 1
  ∧ stream_chunks_from_file request_id stream_id actor true []
        = [{ event := "s2c." ++ actor ++ ".stream.end", request_id, stream_id,
             seq := some 1, modifier := .fin, actor, delta := none,
             finish_reason := some "stop", error_msg := none }] := by
  refine ⟨?_, ?_, ?_, ?_⟩
  · unfold countChunks stream_chunks_from_file
    rw [if_neg (by simp), List.countP_append,
        countP_map_true _ _ _ (fun a => rfl)]
    simp [List.enum_length, chunksOf1000_length, List.countP_cons]
  · simp [stream_chunks_from_file, List.getLast?_concat, chunksOf1000_length]
  · unfold countEnds stream_chunks_from_file
    rw [if_neg (by simp), List.countP_append,
        countP_map_false _ _ _ (fun a => rfl)]
    simp [List.countP_cons]
  · simp [stream_chunks_from_file, chunksOf1000]

/-! ## Cached-analysis streamer (`core/sockets/claude_sdk_actor.py` 234-297) -/

/-- Model of `ClaudeSDKActor.stream_cached_analysis`.  Directly from the
source: the `stream_id` argument is immediately shadowed by a fresh uuid
(line 239), a server-side `start` envelope is emitted with actor "writer" and
no seq, the file content is iterated character by character
(`for chunk in content`, line 261) with `seq` starting at 0 and incremented
after each chunk emission (lines 258, 279), and the final `end` envelope is
emitted with the literal `seq=1` (line 284). -/
def stream_cached_analysis (request_id stream_id fresh_stream_id : String)
    (content : List Char) : List Emit :=
  let _ := stream_id  -- reassigned before first use (line 239)
  [{ event := "s2c.writer.stream.start", request_id,
     stream_id := fresh_stream_id, seq := none, modifier := .start,
     actor := "writer", delta := some ['s', 't', 'a', 'r', 't'],
     finish_reason := none, error_msg := none }]
  ++ (content.enum.map fun p =>
      { event := "s2c.writer.stream.chunk", request_id,
        stream_id := fresh_stream_id, seq := some (p.1 : Int),
        modifier := .chunk, actor := "writer", delta := some [p.2],
        finish_reason := none, error_msg := none })
  ++ [{ event := "s2c.writer.stream.end", request_id,
        stream_id := fresh_stream_id, seq := some 1, modifier := .fin,
        actor := "writer", delta := none, finish_reason := some "stop",
        error_msg := none }]

/-! ## Repository metadata (`core/teardown/types.py`)

Only the fields consulted by the verified pipeline functions are carried
(`full_name`, `size`, `default_branch`, `latest_commit`, `archived`,
`disabled`); the remaining statistics/URL/topic fields of
`GitHubRepoMetadata` are never read by `should_clone_repo`,
`compute_repo_hash`, the cache lookups or `process_repo_url`. -/

structure CommitInfo where
  sha : String
  short_sha : Option String
  message : String
  author : String
  date : String
  url : String
deriving Repr, DecidableEq

structure GitHubRepoMetadata where
  full_name : String
  size : Nat  -- size in KB (types.py line 60)
  default_branch : String
  latest_commit : CommitInfo
  archived : Bool
  disabled : Bool
deriving Repr, DecidableEq

structure GitHubRepoError where
  owner : String
  repo_name : String
  error : String
deriving Repr, DecidableEq

inductive GitHubRepoResult where
  | metadata (m : GitHubRepoMetadata)
  | failed (e : GitHubRepoError)
deriving Repr, DecidableEq

/-! ## Acceptance policy and cache key (`core/teardown/git_repo_processor.py`) -/

/-- Model of `RepoProcessor.should_clone_repo` (lines 206-225).
`MAX_REPO_SIZE_MB` (config.py line 23, env-configured, default 100) is passed
as a parameter; `metadata.size` is in KB, so the ceiling is
`MAX_REPO_SIZE_MB * 1024`.  The `archived` branch (lines 218-219) only logs a
warning and does not return.  The interpolated size in the too-large reason
string is elided. -/
def should_clone_repo (maxRepoSizeMB : Nat) (metadata : GitHubRepoMetadata) :
    Bool × String :=
  if metadata.size > maxRepoSizeMB * 1024 then
    (false, "Repository too large")
  else if metadata.disabled then
    (false, "Repository is disabled")
  else
    (true, "Repository is suitable for cloning")

/-- Model of `RepoProcessor.compute_repo_hash` (lines 227-235): the cache hash
is the latest commit SHA. -/
def compute_repo_hash (metadata : GitHubRepoMetadata) : String :=
  metadata.latest_commit.sha

/-- State of the `data` directory: an entry `(full_name, sha)` means the file
`data/{full_name}/{sha}/analysis.md` is present. -/
abbrev CacheStore := List (String × String)

/-- Character-level test that `p` opens `s` (glob pattern `p*` matches `s`). -/
def strPre : List Char → List Char → Bool
  | [], _ => true
  | _ :: _, [] => false
  | a :: ps, b :: ss => a == b && strPre ps ss

/-- Model of `RepoProcessor.check_if_repo_folder_exists` (lines 237-244):
`self.data_dir.glob(f"{metadata.full_name}*")` matches any stored repository
path that extends `metadata.full_name` as a string prefix — the commit SHA of
the entry is not consulted. -/
def check_if_repo_folder_exists (store : CacheStore) (metadata : GitHubRepoMetadata) :
    Bool :=
  store.any (fun e => strPre metadata.full_name.data e.1.data)

/-- Model of `RepoProcessor.find_cached_teardown` (lines 246-255): globs for
`analysis.md` inside `data/{full_name}/{repo_hash}/`, so it hits exactly when
the `(full_name, repo_hash)` entry is stored. -/
def find_cached_teardown (store : CacheStore) (metadata : GitHubRepoMetadata)
    (repo_hash : String) : Option String :=
  if store.contains (metadata.full_name, repo_hash) then
    some (metadata.full_name ++ "/" ++ repo_hash ++ "/analysis.md")
  else
    none

/-- Results of the external collaborators of one `process_repo_url` run:
`parsed` is the outcome of `extract_repo_info` (none = the reference matched
neither URL pattern and `ValueError` was raised), `fetched` the outcome of the
GitHub metadata call, `cloneOk` whether `git clone` succeeds. -/
structure RepoEnv where
  parsed : Option (String × String)
  fetched : GitHubRepoResult
  cloneOk : Bool
deriving Repr, DecidableEq

/-- Outcome of a `process_repo_url` call: the returned tuple
`(cached_file_path, temp_dir, metadata)` or the message of the exception that
propagated, together with the temporary directories created and removed along
the way (`clone_repo` removes its own directory when the clone fails,
git_repo_processor.py line 287). -/
structure ProcessRun where
  result : Except String (Option String × Option String × GitHubRepoMetadata)
  createdDirs : List String
  removedDirs : List String
deriving Repr

/-- Model of `RepoProcessor.process_repo_url` (lines 324-362), faithful to the
statement order: parse the reference, fetch metadata, apply the acceptance
policy, compute the SHA hash, and only then consult
`check_if_repo_folder_exists`; on that folder-prefix hit the function returns
`(find_cached_teardown(...), None, metadata)` without cloning, otherwise it
clones into a fresh temporary directory. -/
def process_repo_url (store : CacheStore) (maxRepoSizeMB : Nat) (env : RepoEnv)
    (freshTempDir : String) : ProcessRun :=
  match env.parsed with
  | none => ⟨.error "Invalid GitHub URL format", [], []⟩
  | some _ =>
    match env.fetched with
    | .failed e => ⟨.error ("Repository not accessible: " ++ e.error), [], []⟩
    | .metadata m =>
      let sc := should_clone_repo maxRepoSizeMB m
      if sc.1 = false then
        ⟨.error sc.2, [], []⟩
      else
        let repo_hash := compute_repo_hash m
        if check_if_repo_folder_exists store m then
          ⟨.ok (find_cached_teardown store m repo_hash, none, m), [], []⟩
        else if env.cloneOk then
          ⟨.ok (none, some freshTempDir, m), [freshTempDir], []⟩
        else
          ⟨.error "Failed to clone repository", [freshTempDir], [freshTempDir]⟩

/-! ## Teardown handler (`core/sockets/claude_sdk_actor.py` 299-357) -/

/-- Python attribute lookup `result.cached_file_path` performed by
`handle_repo_teardown` (claude_sdk_actor.py line 310) on the value returned by
`RepoProcessor.process_repo_url`.  That function returns the plain tuple
`(cached_file_path, temp_dir, metadata)` (git_repo_processor.py line 326 and
returns at lines 351, 358); a Python tuple has no attribute
`cached_file_path` — the attribute-carrying models `ProcessRepoResultCache` /
`ProcessRepoResultNoCache` declared in core/teardown/types.py are never
constructed — so the lookup raises `AttributeError`. -/
def tuple_attr_cached_file_path
    (_result : Option String × Option String × GitHubRepoMetadata) :
    Except String (Option String) :=
  .error "AttributeError: tuple object has no attribute cached_file_path"

/-- The terminal error envelope built in the `except` block of
`handle_repo_teardown` (lines 335-352): seq is the literal 1, actor "claude",
`finish_reason` "error", the stringified exception under "error".  (The
`Actor` literal of envelope_type.py does not include "claude"; the model
records the envelope the handler attempts to emit.) -/
def end_error_emit (request_id stream_id e : String) : Emit :=
  { event := "s2c.claude.stream.end", request_id, stream_id, seq := some 1,
    modifier := .fin, actor := "claude", delta := none,
    finish_reason := some "error", error_msg := some e }

/-- Observable outcome of one `handle_repo_teardown` task: the envelopes
emitted, the directories handed to `cleanup_temp_dir` in the `finally`
block, and the temporary directories created during the run that no one
removed. -/
structure TeardownRun where
  emits : List Emit
  cleanedDirs : List String
  leakedDirs : List String
deriving Repr

/-- Model of `ClaudeSDKActor.handle_repo_teardown` (lines 299-357), statement
by statement: `repo_directory = None` (line 307); `process_repo_url` (line
309); if it raised, the `except` block emits the terminal error envelope and
the `finally` block skips cleanup because `repo_directory` is still `None`;
if it returned, line 310 evaluates `result.cached_file_path`, which raises
`AttributeError` before `repo_directory` is ever assigned (line 317), so the
same except/finally path runs and the remainder of the `try` block
(`close_claude_stream`, `stream_cached_analysis`,
`stream_claude_code_sdk_chunks`, `save_teardown`) is unreachable. -/
def handle_repo_teardown (store : CacheStore) (maxRepoSizeMB : Nat) (env : RepoEnv)
    (freshTempDir : String) (request_id stream_id : String) : TeardownRun :=
  let run := process_repo_url store maxRepoSizeMB env freshTempDir
  let leaked := run.createdDirs.filter (fun d => !(run.removedDirs.contains d))
  match run.result with
  | .error e =>
    { emits := [end_error_emit request_id stream_id e],
      cleanedDirs := [], leakedDirs := leaked }
  | .ok result =>
    match tuple_attr_cached_file_path result with
    | .error e =>
      { emits := [end_error_emit request_id stream_id e],
        cleanedDirs := [], leakedDirs := leaked }
    | .ok _ =>
      -- unreachable: `tuple_attr_cached_file_path` always raises
      { emits := [], cleanedDirs := [], leakedDirs := leaked }

/-! ## Claude SDK stream task (`core/sockets/actors/claude_sdk.py`) -/

/-- One content block of an SDK message: `TextBlock`, `ToolUseBlock` (its
`input` already rendered by `json.dumps`), or any other block type, which
`_process_content_block` only logs (line 167). -/
inductive SDKBlock where
  | text (s : String)
  | toolUse (input : String)
  | other
deriving Repr, DecidableEq

/-- One event of the `client.receive_response()` iterator: a message whose
`content` attribute is present (`some blocks`) or absent (`none`), flagged as
a `ResultMessage` or not; or the iterator itself raising. -/
inductive SDKEvent where
  | message (content : Option (List SDKBlock)) (isResult : Bool)
  | iterFault (msg : String)
deriving Repr, DecidableEq

/-- The delta a block produces: `block.text` for a `TextBlock`, the fenced
code block `"\n```json\n" + json.dumps(input) + "\n```\n"` for a
`ToolUseBlock` (`_format_tool_input`, line 188-190), nothing for other
blocks. -/
def block_delta : SDKBlock → Option (List Char)
  | .text s => some s.data
  | .toolUse input => some ("\n```json\n" ++ input ++ "\n```\n").data
  | .other => none

/-- Model of `ClaudeSDKActor.chunk_processor` (actors/claude_sdk.py lines
132-149).  If the message has no `content` attribute the function returns at
once — even for a `ResultMessage`, whose end-of-stream envelope is only sent
after the block loop (line 148).  Otherwise `seq` is incremented once per
block (line 145) before the block is dispatched, so block `i` carries
`seq + i + 1` whether or not it emits, and the `end` envelope reuses the
final value `seq + blocks.length` — it does not increment past it. -/
def chunk_processor (request_id stream_id : String) (seq : Int)
    (content : Option (List SDKBlock)) (isResult : Bool) : List Emit :=
  match content with
  | none => []
  | some blocks =>
    (blocks.enum.filterMap fun p =>
      (block_delta p.2).map fun d =>
        { event := "s2c.claude.stream.chunk", request_id, stream_id,
          seq := some (seq + (p.1 : Int) + 1), modifier := .chunk,
          actor := "claude", delta := some d,
          finish_reason := none, error_msg := none })
    ++ (if isResult then
          [{ event := "s2c.claude.stream.end", request_id, stream_id,
             seq := some (seq + (blocks.length : Int)), modifier := .fin,
             actor := "claude", delta := none,
             finish_reason := some "stop", error_msg := none }]
        else [])

/-- Outcome of the spawned streaming task: the envelopes it emitted and the
exception that escaped it, if any.  `handle_stream_start`
(actors/claude_sdk.py line 62) wraps the task in no exception handler, so an
escaping exception terminates the task without emitting anything further. -/
structure StreamTaskRun where
  emits : List Emit
  raised : Option String
deriving Repr, DecidableEq

/-- Model of `ClaudeSDKActor._process_stream` (actors/claude_sdk.py lines
120-130).  `seq = 0` is set once before the loop and never reassigned: Python
integers are passed by value, so every `chunk_processor` call receives 0 and
the increments inside it are lost between messages.  Exceptions raised inside
`chunk_processor` are caught and only logged (line 129-130); an exception
raised by the iterator itself propagates out of the loop. -/
def process_stream (request_id stream_id : String) : List SDKEvent → StreamTaskRun
  | [] => { emits := [], raised := none }
  | .message content isResult :: rest =>
    let here := chunk_processor request_id stream_id 0 content isResult
    let later := process_stream request_id stream_id rest
    { emits := here ++ later.emits, raised := later.raised }
  | .iterFault msg :: _ => { emits := [], raised := some msg }

/-! ## Dispatcher start handlers -/

/-- The three possible outcomes of a stream-start handler: a synchronous fail
acknowledgement, a synchronous ok acknowledgement (with whether the
generation task was spawned), or an exception thrown across the dispatcher
boundary. -/
inductive StartOutcome where
  | ackFail (code message : String)
  | ackOk (request_id stream_id : String) (task_spawned : Bool)
  | raised (message : String)
deriving Repr, DecidableEq

/-- Python evaluation of the subscript `Envelope[T]` where `Envelope` is the
non-generic model of `core/sockets/envelope_type.py` — as written at
core/sockets/base.py line 27 and claude_sdk_actor.py line 62.
`envelope_type.Envelope` does not inherit from `typing.Generic`, so pydantic
v2 raises `TypeError` before any validation runs, and the surrounding
`except ValidationError` clauses do not catch a `TypeError`. -/
def nonGenericEnvelopeSubscript : Except String Unit :=
  .error "TypeError: Envelope cannot be parametrized because it does not inherit from typing.Generic"

/-- Fields the body of `ClaudeSDKActor.handle_stream_start`
(claude_sdk_actor.py lines 60-101) would consult had validation run:
structural validity of the envelope with a string `query` payload, the
optional request id, and the `Optional` `repo_url`. -/
structure RawClaudeStart where
  envelope_ok : Bool
  request_id : Option String
  repo_url : Option String
deriving Repr, DecidableEq

/-- Model of `ClaudeSDKActor.handle_stream_start` in claude_sdk_actor.py
(lines 60-101).  Line 62 subscripts the non-generic `envelope_type.Envelope`
(this file imports `Envelope` from `core.sockets.envelope_type`, line 20), so
`TypeError` is raised on every call and crosses the dispatcher boundary; the
remainder of the body — the invalid_envelope fail acks, the stream-id mint,
the teardown task spawn, and the line-95 `raise ValueError("Repo URL is
required")` — is dead code, retained here in the unreachable branch. -/
def old_claude_handle_stream_start (raw : RawClaudeStart) (fresh_stream_id : String) :
    StartOutcome :=
  match nonGenericEnvelopeSubscript with
  | .error e => .raised e
  | .ok _ =>
    if raw.envelope_ok = false then
      .ackFail "invalid_envelope" "The envelope is not in the correct format"
    else
      match raw.request_id with
      | none => .ackFail "invalid_envelope" "The envelope is missing request_id"
      | some rid =>
        match raw.repo_url with
        | some _ => .ackOk rid fresh_stream_id true
        | none => .raised "ValueError: Repo URL is required"

/-- Modelled from the spec: `envelope_ok` is the outcome of
`Envelope[ClaudeSDKRequest].model_validate(envelope)` in
core/sockets/actors/claude_sdk.py line 48, whose `Envelope` comes from the
generic envelope module `core/sockets/types/envelope.py` — absent from
`src/`, re-exported by the package `__init__` — so validation is modelled by
the spec's codec contract: reject when `direction`/`actor`/`action`/
`modifier` are missing or the payload fails the actor's shape, here
`ClaudeSDKRequest` with one required string `query`.  `request_id` and
`query` are the validated envelope's fields. -/
structure RawClaudeSDKStart where
  envelope_ok : Bool
  request_id : Option String
  query : String
deriving Repr, DecidableEq

/-- Model of `ClaudeSDKActor.handle_stream_start` in actors/claude_sdk.py
(lines 46-76): a `ValidationError` or a missing `request_id` returns the
invalid_envelope fail ack built by `_ack_fail`; otherwise a stream id is
minted (line 56) and line 58 checks `if not validated_envelope.data.query:`
— an empty query string is falsy, so line 59 raises
`ValueError("Query is required")` outside any try block, crossing the
dispatcher boundary; otherwise the working directory is made, the task
spawned (line 62) and `AckOk` returned. -/
def claude_sdk_handle_stream_start (raw : RawClaudeSDKStart)
    (fresh_stream_id : String) : StartOutcome :=
  if raw.envelope_ok = false then
    .ackFail "invalid_envelope" "The envelope is not in the correct format"
  else
    match raw.request_id with
    | none => .ackFail "invalid_envelope" "The envelope is missing request_id"
    | some rid =>
      if raw.query = "" then
        .raised "ValueError: Query is required"
      else
        .ackOk rid fresh_stream_id true

/-- Modelled from the spec: `envelope_ok` is the outcome of
`Envelope[data_type].model_validate(envelope)` in
core/sockets/actors/base.py line 41, whose `Envelope` is the generic one of
the `core/sockets/types/envelope.py` module absent from `src/`; validation
follows the spec's codec contract as for `RawClaudeSDKStart`.  `request_id`
is the validated envelope's optional request id. -/
structure RawBaseStart where
  envelope_ok : Bool
  request_id : Option String
deriving Repr, DecidableEq

/-- Result of a `BaseActor.handle_stream_start` call: the returned
acknowledgement or escaped exception, the stream id minted by
`str(uuid.uuid4())` if execution reached the mint, and whether
`asyncio.create_task` was called. -/
structure BaseStartRun where
  response : StartOutcome
  minted_stream_id : Option String
  task_spawned : Bool
deriving Repr, DecidableEq

/-- Model of `BaseActor.handle_stream_start` in actors/base.py (lines
39-80): a `ValidationError` or a missing `request_id` short-circuits to an
`AckFail` with code "invalid_envelope" before the stream id mint (line 61)
and the task spawn (line 65); otherwise the stream id is minted, the task
spawned, and `AckOk` returned. -/
def base_handle_stream_start (raw : RawBaseStart) (fresh_stream_id : String) :
    BaseStartRun :=
  if raw.envelope_ok = false then
    { response := .ackFail "invalid_envelope" "The envelope is not in the correct format",
      minted_stream_id := none, task_spawned := false }
  else
    match raw.request_id with
    | none =>
      { response := .ackFail "invalid_envelope" "The envelope is missing request_id",
        minted_stream_id := none, task_spawned := false }
    | some rid =>
      { response := .ackOk rid fresh_stream_id true,
        minted_stream_id := some fresh_stream_id, task_spawned := true }

/-- Model of `BaseActor.handle_stream_start` in core/sockets/base.py (lines
25-66).  Line 27 subscripts the non-generic `envelope_type.Envelope`
(this file imports `Envelope` from `core.sockets.envelope_type`, line 8), so
`TypeError` is raised on every call, uncaught by the `except ValidationError`
clause at line 38; no acknowledgement is returned, no stream id is minted,
no task is spawned.  The lines below the subscript are textually the same as
actors/base.py and are retained in the unreachable branch. -/
def old_base_handle_stream_start (raw : RawBaseStart) (fresh_stream_id : String) :
    BaseStartRun :=
  match nonGenericEnvelopeSubscript with
  | .error e =>
    { response := .raised e, minted_stream_id := none, task_spawned := false }
  | .ok _ =>
    base_handle_stream_start raw fresh_stream_id

/-- Whether a start-handler outcome is a fail acknowledgement with the given
error code. -/
def StartOutcome.isFailWithCode (o : StartOutcome) (c : String) : Bool :=
  match o with
  | .ackFail code _ => code == c
  | _ => false

/-! ## Claim theorems -/

/-- Scenario for C1: the store holds the analysis of an older commit of
"owner/repo"; the repository now resolves to latest commit "sha-new". -/
def c1_metadata : GitHubRepoMetadata :=
  { full_name := "owner/repo", size := 10, default_branch := "main",
    latest_commit := { sha := "sha-new", short_sha := some "sha-new",
                       message := "m", author := "a", date := "d", url := "u" },
    archived := false, disabled := false }

def c1_store : CacheStore := [("owner/repo", "sha-old")]

def c1_env : RepoEnv :=
  { parsed := some ("owner", "repo"), fetched := .metadata c1_metadata,
    cloneOk := true }

/-- C1: the claim fails on the code.  The cache key is the pair
(full name, latest commit SHA) — `compute_repo_hash` returns the SHA and
`find_cached_teardown` consults `data/{full_name}/{sha}` — but the lookup that
gates acquisition, `check_if_repo_folder_exists`, globs by full name alone.
Concretely: the store has no entry for ("owner/repo", "sha-new"), yet
`process_repo_url` returns `(None, None, metadata)` — no cached artifact and
no clone — because the folder of the older commit "sha-old" makes the
existence check succeed, contradicting "a new commit on the same repository
always misses and proceeds to acquisition". -/
theorem cache_key_new_commit_skips_acquisition :
    c1_store.contains ("owner/repo", "sha-new") = false
  ∧ compute_repo_hash c1_metadata = "sha-new"
  ∧ (process_repo_url c1_store 100 c1_env "tmp-1").result
      = .ok (none, none, c1_metadata)
  ∧ (process_repo_url c1_store 100 c1_env "tmp-1").createdDirs = [] :=
  ⟨rfl, rfl, rfl, rfl⟩

/-- C2: the claim fails on the code.  `stream_cached_analysis` numbers chunk
envelopes from 0 and emits its end envelope with the literal seq 1: on the
two-character content "ab" the emitted seq values are none (start), 0, 1
(chunks), 1 (end) — the sequence does not start at 1 and the end duplicates
seq 1.  `chunk_processor` receives `seq` by value from `_process_stream`,
which never updates its local `seq = 0`: two consecutive single-block
messages both emit seq 1. -/
theorem stream_cached_analysis_seq_violation :
    seqsOf (stream_cached_analysis "r1" "s0" "s-fresh" ['a', 'b'])
      = [none, some 0, some 1, some 1]
  ∧ seqsOf (process_stream "r1" "s1"
        [.message (some [.text "a"]) false,
         .message (some [.text "b"]) false]).emits
      = [some 1, some 1] :=
  ⟨rfl, rfl⟩

/-- C3: the claim fails on the code.  After an ok acknowledgement from
`ClaudeSDKActor.handle_stream_start` (actors/claude_sdk.py), the spawned task
runs `_process_stream` with no surrounding exception handler; when the SDK
chunk iterator raises after the first message, the exception escapes the task
and no end envelope — in particular none with reason error — is ever emitted
on the acked stream. -/
theorem stream_fault_emits_no_end :
    (process_stream "r1" "s1"
        [.message (some [.text "hello"]) false,
         .iterFault "transport error"]).raised = some "transport error"
  ∧ countEnds (process_stream "r1" "s1"
        [.message (some [.text "hello"]) false,
         .iterFault "transport error"]).emits = 0
  ∧ countChunks (process_stream "r1" "s1"
        [.message (some [.text "hello"]) false,
         .iterFault "transport error"]).emits = 1 :=
  ⟨rfl, rfl, rfl⟩

/-- Scenario for C4: the exact key ("owner/repo", "sha-1") is cached. -/
def c4_metadata : GitHubRepoMetadata :=
  { full_name := "owner/repo", size := 10, default_branch := "main",
    latest_commit := { sha := "sha-1", short_sha := some "sha-1",
                       message := "m", author := "a", date := "d", url := "u" },
    archived := false, disabled := false }

def c4_store : CacheStore := [("owner/repo", "sha-1")]

def c4_env : RepoEnv :=
  { parsed := some ("owner", "repo"), fetched := .metadata c4_metadata,
    cloneOk := true }

/-- C4: the claim fails on the code.  On a cache hit the pipeline does skip
cloning and `process_repo_url` returns the cached artifact path in its result
tuple, but `handle_repo_teardown` then evaluates `result.cached_file_path` on
that tuple, raising `AttributeError`; the handler emits a single terminal
error envelope and zero chunk envelopes, so the stored artifact is never
streamed at all, let alone byte-for-byte on the acked stream id. -/
theorem teardown_cache_hit_streams_nothing :
    (process_repo_url c4_store 100 c4_env "tmp-1").result
      = .ok (some "owner/repo/sha-1/analysis.md", none, c4_metadata)
  ∧ (handle_repo_teardown c4_store 100 c4_env "tmp-1" "r1" "s1").emits
      = [end_error_emit "r1" "s1"
          "AttributeError: tuple object has no attribute cached_file_path"]
  ∧ countChunks (handle_repo_teardown c4_store 100 c4_env "tmp-1" "r1" "s1").emits
      = 0 :=
  ⟨rfl, rfl, rfl⟩

/-- C5 counterexample: in actors/claude_sdk.py, a structurally valid start
envelope with request id "r1" whose payload passes pydantic validation but
carries an empty query — an actor-specific validation failure — makes
`handle_stream_start` raise `ValueError("Query is required")` across the
dispatcher boundary instead of returning a fail acknowledgement with code
invalid_envelope or invalid_data; and in claude_sdk_actor.py the same start
request never gets any acknowledgement either, because the non-generic
envelope subscript raises `TypeError` on every call. -/
theorem claude_sdk_start_empty_query_raises :
    claude_sdk_handle_stream_start ⟨true, some "r1", ""⟩ "s1"
      = .raised "ValueError: Query is required"
  ∧ (claude_sdk_handle_stream_start ⟨true, some "r1", ""⟩ "s1").isFailWithCode
      "invalid_envelope" = false
  ∧ (claude_sdk_handle_stream_start ⟨true, some "r1", ""⟩ "s1").isFailWithCode
      "invalid_data" = false
  ∧ old_claude_handle_stream_start ⟨true, some "r1", none⟩ "s1"
      = .raised "TypeError: Envelope cannot be parametrized because it does not inherit from typing.Generic"
  ∧ (old_claude_handle_stream_start ⟨true, some "r1", none⟩ "s1").isFailWithCode
      "invalid_envelope" = false :=
  ⟨rfl, rfl, rfl, rfl, rfl⟩

/-- C5 (amended): in actors/claude_sdk.py, envelopes failing structural
validation and envelopes missing a request id receive a synchronous fail
acknowledgement with code invalid_envelope and spawn nothing, but a
structurally valid envelope whose query is empty raises
`ValueError("Query is required")` across the dispatcher boundary instead of
any acknowledgement — no invalid_data acknowledgement is produced on any
path — and only an envelope with a request id and a non-empty query yields
an ok acknowledgement with a spawned task; the claude_sdk_actor.py handler
raises `TypeError` from the non-generic envelope subscript on every call and
never returns any acknowledgement at all. -/
theorem claude_sdk_start_validation_paths (raw : RawClaudeSDKStart) (fresh : String) :
    (raw.envelope_ok = false →
        claude_sdk_handle_stream_start raw fresh
          = .ackFail "invalid_envelope" "The envelope is not in the correct format")
  ∧ (raw.envelope_ok = true → raw.request_id = none →
        claude_sdk_handle_stream_start raw fresh
          = .ackFail "invalid_envelope" "The envelope is missing request_id")
  ∧ (raw.envelope_ok = true → raw.query = "" →
        ∀ rid, raw.request_id = some rid →
          claude_sdk_handle_stream_start raw fresh
            = .raised "ValueError: Query is required")
  ∧ (raw.envelope_ok = true → raw.query ≠ "" →
        ∀ rid, raw.request_id = some rid →
          claude_sdk_handle_stream_start raw fresh = .ackOk rid fresh true)
  ∧ (∀ legacy : RawClaudeStart,
        old_claude_handle_stream_start legacy fresh
          = .raised "TypeError: Envelope cannot be parametrized because it does not inherit from typing.Generic") := by
  rcases raw with ⟨ok, rid, q⟩
  refine ⟨?_, ?_, ?_, ?_, ?_⟩
  · intro h
    subst h
    rfl
  · intro h1 h2
    subst h1
    subst h2
    rfl
  · intro h1 h2 r h3
    subst h1
    subst h2
    subst h3
    rfl
  · intro h1 h2 r h3
    subst h1
    subst h3
    simp only [claude_sdk_handle_stream_start]
    rw [if_neg (by simp), if_neg h2]
  · intro legacy
    rfl

/-- Witness for the amended C5, applied at the concrete envelope of the
counterexample scenario. -/
theorem claude_sdk_start_validation_paths_witness :
    claude_sdk_handle_stream_start ⟨true, some "r1", ""⟩ "s1"
      = .raised "ValueError: Query is required" :=
  (claude_sdk_start_validation_paths ⟨true, some "r1", ""⟩ "s1").2.2.1 rfl rfl "r1" rfl

/-- Scenario for C6: empty cache, accessible repository, clone succeeds into
"tmp-42". -/
def c6_metadata : GitHubRepoMetadata :=
  { full_name := "owner/repo", size := 10, default_branch := "main",
    latest_commit := { sha := "sha-1", short_sha := some "sha-1",
                       message := "m", author := "a", date := "d", url := "u" },
    archived := false, disabled := false }

def c6_env : RepoEnv :=
  { parsed := some ("owner", "repo"), fetched := .metadata c6_metadata,
    cloneOk := true }

/-- C6: the claim fails on the code.  On a cache miss `process_repo_url`
clones into a fresh temporary directory and returns it inside the result
tuple; `handle_repo_teardown` then raises `AttributeError` on
`result.cached_file_path` before `repo_directory` is assigned, so the
`finally` block cleans nothing and the clone directory remains on disk. -/
theorem teardown_miss_leaks_clone_dir :
    (process_repo_url ([] : CacheStore) 100 c6_env "tmp-42").createdDirs
      = ["tmp-42"]
  ∧ (handle_repo_teardown [] 100 c6_env "tmp-42" "r1" "s1").cleanedDirs = []
  ∧ (handle_repo_teardown [] 100 c6_env "tmp-42" "r1" "s1").leakedDirs
      = ["tmp-42"] :=
  ⟨rfl, rfl, rfl⟩

/-- C7: evaluated at a validating start envelope lacking a request id.  The
actors/base.py handler behaves as the claim states — immediate fail
acknowledgement with code invalid_envelope, no stream id minted, no task
spawned — but the also-cited core/sockets/base.py handler raises `TypeError`
from its `Envelope[data_type]` subscript of the non-generic
`envelope_type.Envelope` before validation, uncaught by its
`except ValidationError`, so it returns no fail acknowledgement (it does,
vacuously, mint no stream id and spawn no task). -/
theorem base_start_missing_request_id_divergence :
    (base_handle_stream_start ⟨true, none⟩ "s1").response.isFailWithCode
        "invalid_envelope" = true
  ∧ (base_handle_stream_start ⟨true, none⟩ "s1").minted_stream_id = none
  ∧ (base_handle_stream_start ⟨true, none⟩ "s1").task_spawned = false
  ∧ (old_base_handle_stream_start ⟨true, none⟩ "s1").response
      = .raised "TypeError: Envelope cannot be parametrized because it does not inherit from typing.Generic"
  ∧ (old_base_handle_stream_start ⟨true, none⟩ "s1").response.isFailWithCode
        "invalid_envelope" = false
  ∧ (old_base_handle_stream_start ⟨true, none⟩ "s1").minted_stream_id = none
  ∧ (old_base_handle_stream_start ⟨true, none⟩ "s1").task_spawned = false :=
  ⟨rfl, rfl, rfl, rfl, rfl, rfl, rfl⟩

/-- C9: `should_clone_repo` rejects a repository exactly when its size (KB)
exceeds `MAX_REPO_SIZE_MB * 1024` or its disabled flag is set; an archived
repository of acceptable size that is not disabled is accepted. -/
theorem should_clone_repo_policy :
    (∀ (maxRepoSizeMB : Nat) (m : GitHubRepoMetadata),
        (should_clone_repo maxRepoSizeMB m).1 = false ↔
          (maxRepoSizeMB * 1024 < m.size ∨ m.disabled = true))
  ∧ (∀ (maxRepoSizeMB : Nat) (m : GitHubRepoMetadata),
        m.archived = true → m.size ≤ maxRepoSizeMB * 1024 → m.disabled = false →
          (should_clone_repo maxRepoSizeMB m).1 = true) := by
  constructor
  · intro mb m
    unfold should_clone_repo
    split_ifs with h1 h2
    · simpa using Or.inl h1
    · simpa using Or.inr h2
    · simp [h1, h2]
  · intro mb m _ hsize hdis
    unfold should_clone_repo
    split_ifs with h1 h2
    · omega
    · rw [hdis] at h2
      exact absurd h2 (by simp)
    · rfl

/-- Witness for C9: an archived repository of 50 KB with the default 100 MB
ceiling is accepted. -/
theorem should_clone_repo_policy_witness :
    (should_clone_repo 100
      { full_name := "owner/repo", size := 50, default_branch := "main",
        latest_commit := { sha := "sha-1", short_sha := none, message := "m",
                           author := "a", date := "d", url := "u" },
        archived := true, disabled := false }).1 = true :=
  should_clone_repo_policy.2 100 _ rfl (by decide) rfl

end Tamagotchi
